import Mathlib

/-!
A shallow embedding of the Ocean Trash Management backend (`src/main.py`)
together with the schema-validation and document-store layers it imports
(`schemas.TrashHotspot`, `database.create_document` / `database.get_documents`),
which are modelled from the specification since their source is not part of
the repository snapshot.

Field values of a stored document are JSON-like: text, numbers (modelled as
rationals) and lists of text labels.  A document is an association list of
field name to value, mirroring a Python `dict` with unique keys.
-/

/-- A JSON-like field value as it occurs in hotspot records: text, a number
(Python floats/ints are modelled as rationals), or a list of text tags. -/
inductive Value where
  | str (s : String)
  | num (q : ℚ)
  | arr (xs : List String)
deriving DecidableEq, Repr

/-- A document: a mapping of field name to value, as a Python `dict`
(association list with unique keys, first binding wins on lookup). -/
abbrev Doc := List (String × Value)

/-- Dictionary lookup, `d[k]` / `d.get(k)`: the first binding of `k`. -/
def getField (d : Doc) (k : String) : Option Value :=
  match d with
  | [] => none
  | (k', v) :: rest => if k' == k then some v else getField rest k

/-- `d.pop("_id", None)`: remove the store-assigned identifier key from a
document (`src/main.py` line 74). -/
def popId (d : Doc) : Doc :=
  d.filter (fun kv => kv.1 != "_id")

/-- Python string slicing `s[:n]`: the first `n` characters. -/
def strTake (s : String) (n : Nat) : String :=
  ⟨s.data.take n⟩

/-- Modelled from the spec (§3, §4.1): the canonical shape of a Hotspot as
defined by the Schema Validator `schemas.TrashHotspot`, whose source file is
not in the repository snapshot.  Required: name, latitude, longitude,
density, area_km2, severity; optional with defaults: description (empty),
collected_kg (0), tags ([]). -/
structure TrashHotspot where
  name : String
  latitude : ℚ
  longitude : ℚ
  density : ℚ
  area_km2 : ℚ
  description : String
  collected_kg : ℚ
  severity : String
  tags : List String
deriving DecidableEq, Repr

/-- Extract a required text field, or fail with a validation error. -/
def reqStr (d : Doc) (k : String) : Except String String :=
  match getField d k with
  | some (Value.str s) => Except.ok s
  | some _ => Except.error ("invalid value for field: " ++ k)
  | none => Except.error ("missing required field: " ++ k)

/-- Extract a required numeric field, or fail with a validation error. -/
def reqNum (d : Doc) (k : String) : Except String ℚ :=
  match getField d k with
  | some (Value.num q) => Except.ok q
  | some _ => Except.error ("invalid value for field: " ++ k)
  | none => Except.error ("missing required field: " ++ k)

/-- Extract an optional text field with a default. -/
def optStr (d : Doc) (k : String) (dflt : String) : Except String String :=
  match getField d k with
  | some (Value.str s) => Except.ok s
  | some _ => Except.error ("invalid value for field: " ++ k)
  | none => Except.ok dflt

/-- Extract an optional numeric field with a default. -/
def optNum (d : Doc) (k : String) (dflt : ℚ) : Except String ℚ :=
  match getField d k with
  | some (Value.num q) => Except.ok q
  | some _ => Except.error ("invalid value for field: " ++ k)
  | none => Except.ok dflt

/-- Extract an optional list-of-text field with a default. -/
def optArr (d : Doc) (k : String) (dflt : List String) : Except String (List String) :=
  match getField d k with
  | some (Value.arr xs) => Except.ok xs
  | some _ => Except.error ("invalid value for field: " ++ k)
  | none => Except.ok dflt

/-- Modelled from the spec (§4.1): `parse(raw) -> Hotspot | ValidationError`,
the validation performed by constructing `schemas.TrashHotspot` from a field
mapping (`TrashHotspot(**d)` in the list handler, and the request-body
validation of `HotspotCreate`).  A required field that is missing, or a value
of the wrong shape, is a validation error; unknown keys are ignored; no range
check is performed on latitude/longitude/severity.  String-to-number coercion
is not modelled. -/
def parse (raw : Doc) : Except String TrashHotspot := do
  let n ← reqStr raw "name"
  let lat ← reqNum raw "latitude"
  let lon ← reqNum raw "longitude"
  let den ← reqNum raw "density"
  let area ← reqNum raw "area_km2"
  let desc ← optStr raw "description" ""
  let ckg ← optNum raw "collected_kg" 0
  let sev ← reqStr raw "severity"
  let tg ← optArr raw "tags" []
  Except.ok ⟨n, lat, lon, den, area, desc, ckg, sev, tg⟩

/-- Modelled from the spec (§4.1): `payload.model_dump()`, the field map of a
validated hotspot in field-declaration order. -/
def TrashHotspot.model_dump (h : TrashHotspot) : Doc :=
  [("name", Value.str h.name),
   ("latitude", Value.num h.latitude),
   ("longitude", Value.num h.longitude),
   ("density", Value.num h.density),
   ("area_km2", Value.num h.area_km2),
   ("description", Value.str h.description),
   ("collected_kg", Value.num h.collected_kg),
   ("severity", Value.str h.severity),
   ("tags", Value.arr h.tags)]

/-- The process-wide database handle `db` when it is initialized: the
connected database's name attribute (absent when the driver object has no
`name`), the outcome of `list_collection_names()`, and the contents of the
single collection the handlers use (`"trashhotspot"`), together with a
counter from which the store derives fresh record identifiers. -/
structure DBHandle where
  name : Option String
  collectionsResult : Except String (List String)
  docs : List Doc
  nextId : Nat

/-- The state an HTTP request runs against: the optional store connection
handle (`db`, absent when initialization failed) and whether the
`DATABASE_URL` / `DATABASE_NAME` environment variables are set. -/
structure World where
  dbConn : Option DBHandle
  databaseUrlSet : Bool
  databaseNameSet : Bool

/-- The records currently persisted in the `"trashhotspot"` collection. -/
def World.docs (w : World) : List Doc :=
  match w.dbConn with
  | some h => h.docs
  | none => []

/-- The store-assigned identifier for the `n`-th insert. -/
def oidOf (n : Nat) : String :=
  "oid" ++ toString n

/-- Error text of the spec's `StoreUnavailable` (§4.2): every store
operation fails fast when no live connection exists. -/
def storeUnavailableMsg : String := "Database not available"

/-- Modelled from the spec (§4.2): `database.create_document`, the insert
primitive of the Document Store Adapter (its source file is not in the
repository snapshot).  Durably persists one new record — no dedup, no
upsert — and returns the store-assigned unique identifier as text; fails
with `StoreUnavailable` if no live connection exists.  Only the single
collection used by the handlers is modelled. -/
def create_document (_coll : String) (record : Doc) (w : World) :
    Except String (String × World) :=
  match w.dbConn with
  | none => Except.error storeUnavailableMsg
  | some h =>
      let i := oidOf h.nextId
      Except.ok (i,
        { w with dbConn := some { h with
            docs := h.docs ++ [record ++ [("_id", Value.str i)]],
            nextId := h.nextId + 1 } })

/-- The optional result cap of a find: when present it caps the number of
records returned, when absent all matching records are returned (§4.2). -/
def applyLimit : Option Nat → List Doc → List Doc
  | none, ds => ds
  | some n, ds => ds.take n

/-- Modelled from the spec (§4.2): `database.get_documents`, the find
primitive of the Document Store Adapter (its source file is not in the
repository snapshot).  A filter of `{}` — the only filter the handlers
pass — matches all records; fails with `StoreUnavailable` if no live
connection exists; no side effects. -/
def get_documents (_coll : String) (_filter : Doc) (limit : Option Nat)
    (w : World) : Except String (List Doc) :=
  match w.dbConn with
  | none => Except.error storeUnavailableMsg
  | some h => Except.ok (applyLimit limit h.docs)

/-- An HTTP response produced by a handler: a 200 body, or an
`HTTPException(status_code, detail)`. -/
inductive Resp (α : Type) where
  | ok (body : α)
  | httpError (status : Nat) (detail : String)
deriving Repr

/-- Success body of the create handler: `{"id": inserted_id, "ok": True}`. -/
structure CreateResponse where
  id : String
  ok : Bool
deriving DecidableEq, Repr

/-- Success body of the seed handler:
`{"inserted": created, "count": len(created)}`. -/
structure SeedResponse where
  inserted : List String
  count : Nat
deriving DecidableEq, Repr

/-- The normalization loop of `list_hotspots` (`src/main.py` lines 72-75):
for each fetched document, pop the `_id` key and re-validate it as a
`TrashHotspot`; the first validation failure aborts the whole loop with
that error. -/
def parseAll : List Doc → Except String (List TrashHotspot)
  | [] => Except.ok []
  | d :: ds =>
      match parse (popId d) with
      | Except.error e => Except.error e
      | Except.ok h =>
          match parseAll ds with
          | Except.error e => Except.error e
          | Except.ok hs => Except.ok (h :: hs)

/-- `GET /api/hotspots` (`src/main.py` lines 67-78): fetch the documents,
strip the store identifier from each, re-validate each against the schema,
and return the sequence; any error becomes `HTTPException(500, str(e))`. -/
def list_hotspots (limit : Option Nat) (w : World) : Resp (List TrashHotspot) :=
  match get_documents "trashhotspot" [] limit w with
  | Except.error e => Resp.httpError 500 e
  | Except.ok docs =>
      match parseAll docs with
      | Except.error e => Resp.httpError 500 e
      | Except.ok result => Resp.ok result

/-- `POST /api/hotspots` (`src/main.py` lines 80-87): dump the validated
payload to a field map, insert it, and return `{"id": ..., "ok": True}`;
any error becomes `HTTPException(500, str(e))`. -/
def create_hotspot (payload : TrashHotspot) (w : World) :
    Resp CreateResponse × World :=
  match create_document "trashhotspot" payload.model_dump w with
  | Except.error e => (Resp.httpError 500 e, w)
  | Except.ok (inserted_id, w') => (Resp.ok ⟨inserted_id, true⟩, w')

/-- Modelled from the spec (§1, §4.4): the HTTP framework is a black-box
dispatcher that validates the request body against the Schema Validator
before the handler runs.  `src/main.py` declares the create handler as
`def create_hotspot(payload: HotspotCreate)`, so a body that fails
validation never enters the handler's `try`/`except` (lines 82-87); the
dispatcher pinned by the source (`from fastapi import FastAPI`) answers
such a request itself with HTTP 422 Unprocessable Entity carrying the
validation error. -/
def create_endpoint (raw : Doc) (w : World) : Resp CreateResponse × World :=
  match parse raw with
  | Except.error e => (Resp.httpError 422 e, w)
  | Except.ok payload => create_hotspot payload w

/-- The four fixed, hard-coded seed records of `seed_hotspots`
(`src/main.py` lines 93-138). -/
def seeds : List Doc :=
  [[("name", Value.str "Great Pacific Garbage Patch"),
    ("latitude", Value.num 31),
    ("longitude", Value.num (-140)),
    ("density", Value.num 600),
    ("area_km2", Value.num 1600000),
    ("description", Value.str "Largest accumulation of ocean plastic in the North Pacific Gyre"),
    ("collected_kg", Value.num 0),
    ("severity", Value.str "critical"),
    ("tags", Value.arr ["pacific", "gyre", "macroplastics"])],
   [("name", Value.str "North Atlantic Subtropical Gyre"),
    ("latitude", Value.num 31),
    ("longitude", Value.num (-60)),
    ("density", Value.num 300),
    ("area_km2", Value.num 1000000),
    ("description", Value.str "High-density accumulation zone in the Atlantic"),
    ("collected_kg", Value.num 0),
    ("severity", Value.str "high"),
    ("tags", Value.arr ["atlantic", "gyre"])],
   [("name", Value.str "Indian Ocean Gyre"),
    ("latitude", Value.num (-25)),
    ("longitude", Value.num 80),
    ("density", Value.num 280),
    ("area_km2", Value.num 1200000),
    ("description", Value.str "Persistent plastic accumulation region"),
    ("collected_kg", Value.num 0),
    ("severity", Value.str "high"),
    ("tags", Value.arr ["indian", "gyre"])],
   [("name", Value.str "South Pacific Gyre"),
    ("latitude", Value.num (-30)),
    ("longitude", Value.num (-120)),
    ("density", Value.num 200),
    ("area_km2", Value.num 800000),
    ("description", Value.str "Southern hemisphere accumulation zone"),
    ("collected_kg", Value.num 0),
    ("severity", Value.str "medium"),
    ("tags", Value.arr ["pacific", "south"])]]

/-- The insertion loop of `seed_hotspots` (`src/main.py` lines 139-141):
insert each seed record in order, collecting the assigned identifiers;
the first store failure aborts the loop with that error. -/
def insertSeeds : List Doc → World → Except String (List String × World)
  | [], w => Except.ok ([], w)
  | d :: ds, w =>
      match create_document "trashhotspot" d w with
      | Except.error e => Except.error e
      | Except.ok (i, w') =>
          match insertSeeds ds w' with
          | Except.error e => Except.error e
          | Except.ok (is, w'') => Except.ok (i :: is, w'')

/-- `POST /api/seed-hotspots` (`src/main.py` lines 89-144): insert the four
fixed records unconditionally and return the assigned identifiers with
their count; any error becomes `HTTPException(500, str(e))`. -/
def seed_hotspots (w : World) : Resp SeedResponse × World :=
  match insertSeeds seeds w with
  | Except.error e => (Resp.httpError 500 e, w)
  | Except.ok (created, w') => (Resp.ok ⟨created, created.length⟩, w')

/-- The status-report body of `GET /test` (`src/main.py` lines 31-38), with
`database_url` / `database_name` optional since they start out as `None`. -/
structure StatusReport where
  backend : String
  database : String
  database_url : Option String
  database_name : Option String
  connection_status : String
  collections : List String
deriving DecidableEq, Repr

/-- `GET /test` (`src/main.py` lines 28-58): build the status report.  Every
fallible sub-check sits inside its own `try`/`except`, so the handler always
returns a report (HTTP 200); the fields set from the live connection at
lines 42-43 are overwritten unconditionally at lines 56-57 from the
environment variables.  The handler reads the store but never writes it. -/
def test_database (w : World) : Resp StatusReport × World :=
  let r0 : StatusReport :=
    { backend := "✅ Running"
      database := "❌ Not Available"
      database_url := none
      database_name := none
      connection_status := "Not Connected"
      collections := [] }
  let r1 :=
    match w.dbConn with
    | some h =>
        let rA := { r0 with
          database := "✅ Available"
          database_url := some "✅ Configured"
          database_name := some (match h.name with
            | some n => n
            | none => "✅ Connected")
          connection_status := "Connected" }
        match h.collectionsResult with
        | Except.ok collections =>
            { rA with
              collections := collections.take 10
              database := "✅ Connected & Working" }
        | Except.error e =>
            { rA with database := "⚠️  Connected but Error: " ++ strTake e 50 }
    | none => { r0 with database := "⚠️  Available but not initialized" }
  let r2 := { r1 with
    database_url := some (if w.databaseUrlSet then "✅ Set" else "❌ Not Set")
    database_name := some (if w.databaseNameSet then "✅ Set" else "❌ Not Set") }
  (Resp.ok r2, w)

/-! ## Concrete states used to instantiate the theorems -/

/-- A live, empty store handle. -/
def emptyHandle : DBHandle :=
  { name := some "appdb"
    collectionsResult := Except.ok ["trashhotspot"]
    docs := []
    nextId := 0 }

/-- A world with a live connection and an empty collection. -/
def connectedEmptyWorld : World :=
  { dbConn := some emptyHandle, databaseUrlSet := true, databaseNameSet := true }

/-- A world whose store connection failed to initialize (`db is None`). -/
def disconnectedWorld : World :=
  { dbConn := none, databaseUrlSet := false, databaseNameSet := false }

/-- A valid hotspot payload. -/
def samplePayload : TrashHotspot :=
  { name := "Test Reef"
    latitude := 10
    longitude := 20
    density := 5
    area_km2 := 100
    description := "sample record"
    collected_kg := 0
    severity := "high"
    tags := ["test"] }

/-- A stored document that fails re-validation: it lacks the required
numeric fields. -/
def badDoc : Doc :=
  [("name", Value.str "broken"), ("_id", Value.str "oid9")]

/-- A world whose collection holds one record that fails re-validation. -/
def worldWithBadDoc : World :=
  { dbConn := some { name := none
                     collectionsResult := Except.ok ["trashhotspot"]
                     docs := [badDoc]
                     nextId := 1 }
    databaseUrlSet := false
    databaseNameSet := false }

/-- A world whose connection is live but whose collection listing fails. -/
def errorHandleWorld : World :=
  { dbConn := some { name := some "appdb"
                     collectionsResult := Except.error "connection reset by peer while listing collection names"
                     docs := []
                     nextId := 0 }
    databaseUrlSet := true
    databaseNameSet := false }

/-- A create request body with the required `name` field omitted. -/
def missingNameDoc : Doc :=
  [("latitude", Value.num 31),
   ("longitude", Value.num (-140)),
   ("density", Value.num 600),
   ("area_km2", Value.num 1600000),
   ("severity", Value.str "critical")]

/-! ## Helper lemmas -/

/-- Validation round-trip: parsing the field map of a validated hotspot
gives back the hotspot. -/
theorem parse_model_dump (p : TrashHotspot) : parse p.model_dump = Except.ok p := rfl

/-- Popping `_id` from a dumped payload with a store-assigned identifier
appended recovers the dumped payload. -/
theorem popId_model_dump_append (p : TrashHotspot) (v : Value) :
    popId (p.model_dump ++ [("_id", v)]) = p.model_dump := rfl

/-- A freshly stored payload record re-validates to the payload itself. -/
theorem parse_popId_model_dump (p : TrashHotspot) (v : Value) :
    parse (popId (p.model_dump ++ [("_id", v)])) = Except.ok p := rfl

/-- Store-assigned identifiers are never the empty string. -/
theorem oidOf_ne_empty (n : Nat) : oidOf n ≠ "" := by
  intro h
  have hlen := congrArg String.length h
  simp [oidOf, String.length_append] at hlen
  exact absurd hlen.1 (by decide)

/-- Unfolding the insert primitive over a live connection. -/
theorem create_document_eq (c : String) (d : Doc) (w : World) (h : DBHandle)
    (hc : w.dbConn = some h) :
    create_document c d w = Except.ok (oidOf h.nextId,
      { w with dbConn := some { h with
          docs := h.docs ++ [d ++ [("_id", Value.str (oidOf h.nextId))]],
          nextId := h.nextId + 1 } }) := by
  simp [create_document, hc]

/-- Unfolding the find primitive over a live connection. -/
theorem get_documents_eq (c : String) (f : Doc) (limit : Option Nat)
    (w : World) (h : DBHandle) (hc : w.dbConn = some h) :
    get_documents c f limit w = Except.ok (applyLimit limit h.docs) := by
  simp [get_documents, hc]

/-- The list handler over a live connection is the normalization loop over
the (possibly capped) stored documents. -/
theorem list_hotspots_eq (limit : Option Nat) (w : World) (h : DBHandle)
    (hc : w.dbConn = some h) :
    list_hotspots limit w =
      match parseAll (applyLimit limit h.docs) with
      | Except.error e => Resp.httpError 500 e
      | Except.ok result => Resp.ok result := by
  simp only [list_hotspots, get_documents_eq "trashhotspot" [] limit w h hc]

/-- The normalization loop preserves the number of records when it
succeeds. -/
theorem parseAll_length (ds : List Doc) (hs : List TrashHotspot)
    (h : parseAll ds = Except.ok hs) : hs.length = ds.length := by
  induction ds generalizing hs with
  | nil =>
      simp only [parseAll] at h
      cases h
      rfl
  | cons d ds ih =>
      simp only [parseAll] at h
      cases hp : parse (popId d) with
      | error e => rw [hp] at h; cases h
      | ok p =>
          rw [hp] at h
          cases hrest : parseAll ds with
          | error e => rw [hrest] at h; cases h
          | ok ps =>
              rw [hrest] at h
              cases h
              simp [ih ps hrest]

/-- If every stored record re-validates, the normalization loop succeeds. -/
theorem parseAll_ok_of_forall (ds : List Doc)
    (hall : ∀ d ∈ ds, ∃ p, parse (popId d) = Except.ok p) :
    ∃ hs, parseAll ds = Except.ok hs := by
  induction ds with
  | nil => exact ⟨[], rfl⟩
  | cons d ds ih =>
      obtain ⟨p, hp⟩ := hall d (List.mem_cons_self d ds)
      obtain ⟨hs, hhs⟩ := ih (fun d' hd' => hall d' (List.mem_cons_of_mem d hd'))
      exact ⟨p :: hs, by simp only [parseAll, hp, hhs]⟩

/-- Appending one re-validating record to a succeeding normalization loop. -/
theorem parseAll_append_ok (ds : List Doc) (hs : List TrashHotspot)
    (d : Doc) (p : TrashHotspot)
    (hds : parseAll ds = Except.ok hs) (hd : parse (popId d) = Except.ok p) :
    parseAll (ds ++ [d]) = Except.ok (hs ++ [p]) := by
  induction ds generalizing hs with
  | nil =>
      simp only [parseAll] at hds
      cases hds
      simp only [List.nil_append, parseAll, hd]
  | cons d' ds ih =>
      simp only [parseAll] at hds
      cases hp' : parse (popId d') with
      | error e => rw [hp'] at hds; cases hds
      | ok p' =>
          rw [hp'] at hds
          cases hrest : parseAll ds with
          | error e => rw [hrest] at hds; cases hds
          | ok ps =>
              rw [hrest] at hds
              cases hds
              simp only [List.cons_append, parseAll, hp', List.append_eq, ih ps hrest]

/-- One failing record makes the whole normalization loop fail. -/
theorem parseAll_error_of_mem (ds : List Doc) (d : Doc) (e : String)
    (hd : d ∈ ds) (he : parse (popId d) = Except.error e) :
    ∃ e', parseAll ds = Except.error e' := by
  induction ds with
  | nil => cases hd
  | cons d' ds ih =>
      rcases List.mem_cons.mp hd with rfl | hmem
      · exact ⟨e, by simp only [parseAll, he]⟩
      · cases hp' : parse (popId d') with
        | error e' => exact ⟨e', by simp only [parseAll, hp']⟩
        | ok p' =>
            obtain ⟨e', he'⟩ := ih hmem
            exact ⟨e', by simp only [parseAll, hp', he']⟩

/-- Every record of a succeeding normalization loop was re-validated after
stripping `_id`, and its parsed form is among the results. -/
theorem parseAll_mem (ds : List Doc) (hs : List TrashHotspot)
    (h : parseAll ds = Except.ok hs) (d : Doc) (hd : d ∈ ds) :
    ∃ p, parse (popId d) = Except.ok p ∧ p ∈ hs := by
  induction ds generalizing hs with
  | nil => cases hd
  | cons d' ds ih =>
      simp only [parseAll] at h
      cases hp' : parse (popId d') with
      | error e => rw [hp'] at h; cases h
      | ok p' =>
          rw [hp'] at h
          cases hrest : parseAll ds with
          | error e => rw [hrest] at h; cases h
          | ok ps =>
              rw [hrest] at h
              cases h
              rcases List.mem_cons.mp hd with rfl | hmem
              · exact ⟨p', hp', List.mem_cons_self p' ps⟩
              · obtain ⟨p, hp, hpmem⟩ := ih ps hrest hmem
                exact ⟨p, hp, List.mem_cons_of_mem p' hpmem⟩

/-- Length of Python slicing is capped by the slice bound. -/
theorem strTake_length_le (s : String) (n : Nat) : (strTake s n).length ≤ n := by
  have h : (strTake s n).length = (s.data.take n).length := rfl
  rw [h, List.length_take]
  exact min_le_left _ _

/-! ## Claims -/

/-- C1 counterexample: the write-then-read round trip fails as stated when
the store already holds a record that does not re-validate.  Over a store
containing one such record, a concrete create succeeds with a non-empty
identifier and `ok = true`, yet the immediately following list — same
store, no intervening writes — answers HTTP 500 instead of a sequence
containing the submitted record (the schema-on-read gap of spec §9). -/
theorem create_succeeds_then_list_500 :
    (create_hotspot samplePayload worldWithBadDoc).1 = Resp.ok ⟨oidOf 1, true⟩ ∧
    oidOf 1 ≠ "" ∧
    list_hotspots none (create_hotspot samplePayload worldWithBadDoc).2 =
      Resp.httpError 500 "missing required field: latitude" :=
  ⟨rfl, oidOf_ne_empty 1, rfl⟩

/-- C1 (amended): creating a valid hotspot over a live store returns a
non-empty identifier with `ok = true`, and — provided every record already
in the store re-validates against the schema — listing the same store
afterwards (no intervening writes) returns a sequence containing a record
whose fields equal the submitted payload's fields, the store-assigned
identifier being excluded from the returned shape.  The proviso is forced
by the counterexample: one pre-existing non-revalidating record makes the
subsequent list fail as a whole (spec §9). -/
theorem create_then_list_roundtrip (p : TrashHotspot) (w : World) (h : DBHandle)
    (hc : w.dbConn = some h)
    (hclean : ∀ d ∈ h.docs, ∃ q, parse (popId d) = Except.ok q) :
    ∃ i w', create_hotspot p w = (Resp.ok ⟨i, true⟩, w') ∧ i ≠ "" ∧
      ∃ hs, list_hotspots none w' = Resp.ok hs ∧ p ∈ hs := by
  obtain ⟨hs0, hhs0⟩ := parseAll_ok_of_forall h.docs hclean
  refine ⟨oidOf h.nextId,
    { w with dbConn := some { h with
        docs := h.docs ++ [p.model_dump ++ [("_id", Value.str (oidOf h.nextId))]],
        nextId := h.nextId + 1 } },
    ?_, oidOf_ne_empty _, hs0 ++ [p], ?_, by simp⟩
  · simp only [create_hotspot, create_document_eq "trashhotspot" p.model_dump w h hc]
  · rw [list_hotspots_eq none _ _ rfl]
    simp only [applyLimit,
      parseAll_append_ok h.docs hs0 _ p hhs0 (parse_popId_model_dump p _)]

/-- C1 witness: the round trip at a concrete payload over a live empty
store. -/
theorem create_then_list_roundtrip_instance :
    ∃ i w', create_hotspot samplePayload connectedEmptyWorld = (Resp.ok ⟨i, true⟩, w') ∧
      i ≠ "" ∧ ∃ hs, list_hotspots none w' = Resp.ok hs ∧ samplePayload ∈ hs :=
  create_then_list_roundtrip samplePayload connectedEmptyWorld emptyHandle rfl
    (by intro d hd; simp [emptyHandle] at hd)

/-- C2: the list operation strips the store-assigned `_id` from every
record and re-validates every record against the hotspot schema before
returning; if any single record fails re-validation the entire request
fails with an error response and no record sequence is returned. -/
theorem list_strips_and_revalidates (w : World) (h : DBHandle)
    (hc : w.dbConn = some h) :
    (∀ hs, list_hotspots none w = Resp.ok hs →
      hs.length = h.docs.length ∧
      ∀ d ∈ h.docs, ∃ p, parse (popId d) = Except.ok p ∧ p ∈ hs) ∧
    (∀ d e, d ∈ h.docs → parse (popId d) = Except.error e →
      ∃ e', list_hotspots none w = Resp.httpError 500 e') := by
  constructor
  · intro hs hok
    rw [list_hotspots_eq none w h hc] at hok
    simp only [applyLimit] at hok
    cases hpa : parseAll h.docs with
    | error e => rw [hpa] at hok; cases hok
    | ok hs' =>
        rw [hpa] at hok
        cases hok
        exact ⟨parseAll_length _ _ hpa, fun d hd => parseAll_mem _ _ hpa d hd⟩
  · intro d e hd he
    obtain ⟨e', he'⟩ := parseAll_error_of_mem h.docs d e hd he
    refine ⟨e', ?_⟩
    rw [list_hotspots_eq none w h hc]
    simp only [applyLimit, he']

/-- C2 witness: a store holding one record that lacks required fields makes
the whole list request fail with HTTP 500. -/
theorem list_strips_and_revalidates_instance :
    ∃ e', list_hotspots none worldWithBadDoc = Resp.httpError 500 e' :=
  (list_strips_and_revalidates worldWithBadDoc _ rfl).2 badDoc
    "missing required field: latitude" (List.mem_cons_self _ _) rfl

/-- C10: the create handler passes the validated payload to the insert
primitive unchanged — the persisted record is exactly the payload's field
map with only the store-assigned `_id` appended by the store, and removing
that identifier recovers the field map verbatim. -/
theorem create_passes_payload_unchanged (p : TrashHotspot) (w : World)
    (h : DBHandle) (hc : w.dbConn = some h) :
    ∃ i w', create_hotspot p w = (Resp.ok ⟨i, true⟩, w') ∧
      World.docs w' = World.docs w ++ [p.model_dump ++ [("_id", Value.str i)]] ∧
      popId (p.model_dump ++ [("_id", Value.str i)]) = p.model_dump := by
  refine ⟨oidOf h.nextId,
    { w with dbConn := some { h with
        docs := h.docs ++ [p.model_dump ++ [("_id", Value.str (oidOf h.nextId))]],
        nextId := h.nextId + 1 } },
    ?_, ?_, popId_model_dump_append p _⟩
  · simp only [create_hotspot, create_document_eq "trashhotspot" p.model_dump w h hc]
  · simp [World.docs, hc]

/-- C10 witness: the frame property at a concrete payload over a live empty
store. -/
theorem create_passes_payload_unchanged_instance :
    ∃ i w', create_hotspot samplePayload connectedEmptyWorld = (Resp.ok ⟨i, true⟩, w') ∧
      World.docs w' = World.docs connectedEmptyWorld ++
        [samplePayload.model_dump ++ [("_id", Value.str i)]] ∧
      popId (samplePayload.model_dump ++ [("_id", Value.str i)]) = samplePayload.model_dump :=
  create_passes_payload_unchanged samplePayload connectedEmptyWorld emptyHandle rfl

/-- C3 counterexample: a create request omitting the required `name` field
is answered with HTTP 422 — a 400-class response — carrying the validation
error, not with HTTP 500, because the body is validated by the dispatcher
before the handler's `try`/`except` is entered. -/
theorem create_missing_field_responds_422 :
    (create_endpoint missingNameDoc connectedEmptyWorld).1 =
      Resp.httpError 422 "missing required field: name" ∧
    (422 : Nat) ≠ 500 ∧ (400 : Nat) ≤ 422 ∧ (422 : Nat) < 500 :=
  ⟨rfl, by decide, by decide, by decide⟩

/-- C3 (amended): errors raised inside the handler bodies — store failures
on create, list and seed, and re-validation failures during list — are
uniformly answered with HTTP 500 carrying the error's textual description,
with validation and store errors undistinguished there; but a validation
error on the create request body is rejected by the dispatcher before the
handler runs, with a 422 response, so client input errors on create do
receive a 400-class response rather than a 500. -/
theorem handler_errors_500_input_validation_422 :
    (∀ (p : TrashHotspot) (w : World), w.dbConn = none →
      (create_hotspot p w).1 = Resp.httpError 500 storeUnavailableMsg) ∧
    (∀ (limit : Option Nat) (w : World), w.dbConn = none →
      list_hotspots limit w = Resp.httpError 500 storeUnavailableMsg) ∧
    (∀ w : World, w.dbConn = none →
      (seed_hotspots w).1 = Resp.httpError 500 storeUnavailableMsg) ∧
    (∀ (w : World) (h : DBHandle) (d : Doc) (e : String), w.dbConn = some h →
      d ∈ h.docs → parse (popId d) = Except.error e →
      ∃ e', list_hotspots none w = Resp.httpError 500 e') ∧
    (∀ (raw : Doc) (w : World) (e : String), parse raw = Except.error e →
      create_endpoint raw w = (Resp.httpError 422 e, w)) := by
  refine ⟨?_, ?_, ?_, ?_, ?_⟩
  · intro p w hc
    simp [create_hotspot, create_document, hc]
  · intro limit w hc
    simp [list_hotspots, get_documents, hc]
  · intro w hc
    simp [seed_hotspots, seeds, insertSeeds, create_document, hc]
  · intro w h d e hc hd he
    obtain ⟨e', he'⟩ := parseAll_error_of_mem h.docs d e hd he
    refine ⟨e', ?_⟩
    rw [list_hotspots_eq none w h hc]
    simp only [applyLimit, he']
  · intro raw w e he
    simp [create_endpoint, he]

/-- C3 witness: a disconnected store turns a concrete create into an
HTTP 500 with the store error's text, and a concrete body missing `name`
into a dispatcher-level 422. -/
theorem handler_errors_500_input_validation_422_instance :
    (create_hotspot samplePayload disconnectedWorld).1 =
      Resp.httpError 500 storeUnavailableMsg ∧
    create_endpoint missingNameDoc disconnectedWorld =
      (Resp.httpError 422 "missing required field: name", disconnectedWorld) :=
  ⟨handler_errors_500_input_validation_422.1 samplePayload disconnectedWorld rfl,
   handler_errors_500_input_validation_422.2.2.2.2 missingNameDoc disconnectedWorld
     "missing required field: name" rfl⟩

/-- C4: every successful seed call inserts exactly the four fixed records
and returns their identifiers with count 4; the record named "Great
Pacific Garbage Patch" has latitude 31.0, longitude -140.0, severity
"critical", and tags containing "pacific", "gyre" and "macroplastics". -/
theorem seed_inserts_four_fixed (w : World) (h : DBHandle)
    (hc : w.dbConn = some h) :
    (∃ ids w', seed_hotspots w = (Resp.ok ⟨ids, 4⟩, w') ∧ ids.length = 4 ∧
      (World.docs w').length = h.docs.length + 4 ∧
      ((World.docs w').drop h.docs.length).map popId = seeds) ∧
    ∃ d, d ∈ seeds ∧
      getField d "name" = some (Value.str "Great Pacific Garbage Patch") ∧
      getField d "latitude" = some (Value.num 31) ∧
      getField d "longitude" = some (Value.num (-140)) ∧
      getField d "severity" = some (Value.str "critical") ∧
      ∃ t, getField d "tags" = some (Value.arr t) ∧
        "pacific" ∈ t ∧ "gyre" ∈ t ∧ "macroplastics" ∈ t := by
  constructor
  · obtain ⟨conn, us, ns⟩ := w
    obtain rfl : conn = some h := hc
    refine ⟨_, _, rfl, rfl, ?_, ?_⟩
    · simp [World.docs]
    · simp only [World.docs, List.append_assoc, List.cons_append, List.nil_append,
        List.drop_left, List.map_cons, List.map_nil]
      rfl
  · exact ⟨_, List.mem_cons_self _ _, rfl, rfl, rfl, rfl,
      ⟨["pacific", "gyre", "macroplastics"], rfl, by decide, by decide, by decide⟩⟩

/-- C4 witness: seeding a live empty store. -/
theorem seed_inserts_four_fixed_instance :
    ∃ ids w', seed_hotspots connectedEmptyWorld = (Resp.ok ⟨ids, 4⟩, w') ∧
      ids.length = 4 ∧
      (World.docs w').length = (emptyHandle.docs).length + 4 ∧
      ((World.docs w').drop (emptyHandle.docs).length).map popId = seeds :=
  (seed_inserts_four_fixed connectedEmptyWorld emptyHandle rfl).1

/-- C5: seeding is not idempotent: from an empty collection, two seed calls
leave 8 stored records (not 4) with no deduplication, while each call
individually reports count 4. -/
theorem seed_twice_stores_eight :
    ∃ r1 w1 r2 w2, seed_hotspots connectedEmptyWorld = (Resp.ok r1, w1) ∧
      seed_hotspots w1 = (Resp.ok r2, w2) ∧ r1.count = 4 ∧ r2.count = 4 ∧
      (World.docs w2).length = 8 ∧ (8 : Nat) ≠ 4 :=
  ⟨_, _, _, _, rfl, rfl, rfl, rfl, rfl, by decide⟩

/-- C6: a list with a limit returns at most that many records; a list with
no limit returns every stored record; limit 2 over the four seeded records
returns exactly 2; listing an empty collection returns the empty sequence
with HTTP 200. -/
theorem list_limit_caps_results :
    (∀ (w : World) (h : DBHandle) (n : Nat) (hs : List TrashHotspot),
      w.dbConn = some h → list_hotspots (some n) w = Resp.ok hs →
      hs.length ≤ n) ∧
    (∀ (w : World) (h : DBHandle) (hs : List TrashHotspot),
      w.dbConn = some h → list_hotspots none w = Resp.ok hs →
      hs.length = h.docs.length) ∧
    (∃ hs, list_hotspots (some 2) (seed_hotspots connectedEmptyWorld).2 = Resp.ok hs ∧
      hs.length = 2) ∧
    list_hotspots none connectedEmptyWorld = Resp.ok [] := by
  refine ⟨?_, ?_, ⟨_, rfl, rfl⟩, rfl⟩
  · intro w h n hs hc hok
    rw [list_hotspots_eq (some n) w h hc] at hok
    simp only [applyLimit] at hok
    cases hpa : parseAll (h.docs.take n) with
    | error e => rw [hpa] at hok; cases hok
    | ok hs' =>
        rw [hpa] at hok
        cases hok
        rw [parseAll_length _ _ hpa, List.length_take]
        exact min_le_left _ _
  · intro w h hs hc hok
    rw [list_hotspots_eq none w h hc] at hok
    simp only [applyLimit] at hok
    cases hpa : parseAll h.docs with
    | error e => rw [hpa] at hok; cases hok
    | ok hs' =>
        rw [hpa] at hok
        cases hok
        exact parseAll_length _ _ hpa

/-- C6 witness: limit 2 over the four seeded records, checked through the
cap theorem itself. -/
theorem list_limit_caps_results_instance :
    ∃ hs, list_hotspots (some 2) (seed_hotspots connectedEmptyWorld).2 = Resp.ok hs ∧
      hs.length ≤ 2 := by
  obtain ⟨hs, hok, -⟩ := list_limit_caps_results.2.2.1
  exact ⟨hs, hok, list_limit_caps_results.1 _ _ 2 hs rfl hok⟩

/-- C7: the diagnostics operation never fails: it returns a status report
(HTTP 200) for every store connectivity state, and an internal error during
the collection-listing sub-check is caught and reported inside the
`database` field as an error string truncated to at most 50 characters. -/
theorem diagnostics_never_fails :
    (∀ w : World, ∃ r, test_database w = (Resp.ok r, w)) ∧
    (∀ (w : World) (h : DBHandle) (e : String), w.dbConn = some h →
      h.collectionsResult = Except.error e →
      ∃ r, (test_database w).1 = Resp.ok r ∧
        r.database = "⚠️  Connected but Error: " ++ strTake e 50 ∧
        (strTake e 50).length ≤ 50) := by
  constructor
  · intro w
    exact ⟨_, rfl⟩
  · intro w h e hc he
    obtain ⟨conn, us, ns⟩ := w
    obtain rfl : conn = some h := hc
    obtain ⟨hn, hcr, hd, hni⟩ := h
    obtain rfl : hcr = Except.error e := he
    exact ⟨_, rfl, rfl, strTake_length_le e 50⟩

/-- C7 witness: a live connection whose collection listing raises is still
answered with a report carrying the truncated error text. -/
theorem diagnostics_never_fails_instance :
    ∃ r, (test_database errorHandleWorld).1 = Resp.ok r ∧
      r.database = "⚠️  Connected but Error: " ++
        strTake "connection reset by peer while listing collection names" 50 ∧
      (strTake "connection reset by peer while listing collection names" 50).length ≤ 50 :=
  diagnostics_never_fails.2 errorHandleWorld _
    "connection reset by peer while listing collection names" rfl rfl

/-- C8: with a live connection the diagnostics report lists at most the
first 10 collection names returned by the store, and the operation mutates
nothing: the world, and in particular the stored records, are unchanged. -/
theorem diagnostics_caps_collections_no_mutation :
    (∀ (w : World) (h : DBHandle) (names : List String), w.dbConn = some h →
      h.collectionsResult = Except.ok names →
      ∃ r, (test_database w).1 = Resp.ok r ∧ r.collections = names.take 10 ∧
        r.collections.length ≤ 10) ∧
    (∀ w : World, (test_database w).2 = w ∧
      World.docs (test_database w).2 = World.docs w) := by
  constructor
  · intro w h names hc hok
    obtain ⟨conn, us, ns⟩ := w
    obtain rfl : conn = some h := hc
    obtain ⟨hn, hcr, hd, hni⟩ := h
    obtain rfl : hcr = Except.ok names := hok
    refine ⟨_, rfl, rfl, ?_⟩
    show (names.take 10).length ≤ 10
    rw [List.length_take]
    exact min_le_left _ _
  · intro w
    exact ⟨rfl, rfl⟩

/-- C8 witness: diagnostics over a live store listing one collection. -/
theorem diagnostics_caps_collections_no_mutation_instance :
    ∃ r, (test_database connectedEmptyWorld).1 = Resp.ok r ∧
      r.collections = ["trashhotspot"].take 10 ∧ r.collections.length ≤ 10 :=
  diagnostics_caps_collections_no_mutation.1 connectedEmptyWorld emptyHandle
    ["trashhotspot"] rfl rfl

/-- C9: in every diagnostics report the `database_url` and `database_name`
fields are determined solely by whether the corresponding environment
variables are set — the values assigned from the live connection earlier in
the handler are unconditionally overwritten before the report is returned,
whatever the connection state. -/
theorem env_flags_determine_config_fields (w : World) :
    ∃ r, (test_database w).1 = Resp.ok r ∧
      r.database_url = some (if w.databaseUrlSet then "✅ Set" else "❌ Not Set") ∧
      r.database_name = some (if w.databaseNameSet then "✅ Set" else "❌ Not Set") :=
  ⟨_, rfl, rfl, rfl⟩
